import Mathlib

/-
Verification of the detector correction pipeline of bcdi/experiment/detector.py.

The embedding models a 2D numpy array as a shape together with an entry
function over rationals.  Slice assignment follows numpy semantics: slice
bounds clamp silently to the frame extent, while integer indices are
bounds checked and raise IndexError when out of range.  Fallible Python
code is modelled with the Except monad over an error type mirroring the
Python exception classes raised by the module.  The per line slice
assignments of the gap masking methods act on the entry function of the
frame, with the frame shape passed explicitly; the shape of an array
never changes along the pipeline, mirroring numpy in place assignment.
-/

/-- Python exception classes raised by the detector module. -/
inductive PyError where
  | typeError : String → PyError
  | valueError : String → PyError
  | indexError : String → PyError
  | notImplementedError : String → PyError
deriving DecidableEq

/-- True exactly for the ValueError constructor. -/
def isValueError : PyError → Bool
  | .valueError _ => true
  | _ => false

/-- A 2D numpy array of rationals: a shape plus an entry function. -/
structure Mat where
  rows : Nat
  cols : Nat
  entry : Nat → Nat → ℚ

/-- Slice assignment e[r0:r1, c0:c1] = v on a frame of shape nrows by
ncols.  Numpy slices clamp silently to the frame extent, hence the min
with nrows and ncols. -/
def setR (nrows ncols : Nat) (e : Nat → Nat → ℚ) (r0 r1 c0 c1 : Nat) (v : ℚ) :
    Nat → Nat → ℚ :=
  fun i j =>
    if r0 ≤ i ∧ i < min r1 nrows ∧ c0 ≤ j ∧ j < min c1 ncols then v
    else e i j

/-- Assignment e[r0:r1, c] = v with an integer column index on a frame of
shape nrows by ncols.  Numpy bounds checks integer indices and raises
IndexError when out of range, even when the row slice is empty. -/
def setCI (nrows ncols : Nat) (e : Nat → Nat → ℚ) (r0 r1 c : Nat) (v : ℚ) :
    Except PyError (Nat → Nat → ℚ) :=
  if c < ncols then .ok (setR nrows ncols e r0 r1 c (c + 1) v)
  else .error (.indexError "index out of bounds")

/-- A numpy array of arbitrary dimension: shape list plus row-major data. -/
structure NdArr where
  shape : List Nat
  flat : List ℚ

/-- Row-major flattening of a 2D array, as done by ndarray.flatten. -/
def flattenMat (m : Mat) : List ℚ :=
  (List.range (m.rows * m.cols)).map fun k => m.entry (k / m.cols) (k % m.cols)

/-- View a 2D array as an ndarray value. -/
def matToNd (m : Mat) : NdArr := ⟨[m.rows, m.cols], flattenMat m⟩

/-- Read an ndarray back as a 2D array when its shape is 2D. -/
def ndToMat2 (a : NdArr) : Option Mat :=
  match a.shape with
  | [r, c] => some ⟨r, c, fun i j => a.flat.getD (i * c + j) 0⟩
  | _ => none

/-- The detector models handled by the module. -/
inductive DetectorModel where
  | Maxipix | Eiger2M | Eiger4M | Timepix | Merlin | Dummy
deriving DecidableEq

/-- Saturation threshold assigned in each subclass init.  The base class
initializes it to None and Timepix and Dummy keep that value. -/
def saturationThreshold : DetectorModel → Option ℚ
  | .Maxipix => some 1000000
  | .Eiger2M => some 1000000
  | .Eiger4M => some 4000000000
  | .Timepix => none
  | .Merlin => some 1000000
  | .Dummy => none

/-- Detector mask gaps, base implementation: data and mask are returned
unchanged.  Used by Timepix and Dummy which do not override it. -/
def gapsBase (data mask : Mat) : Except PyError (Mat × Mat) := .ok (data, mask)

/-- Maxipix mask gaps: zero data and set mask on the two cross bands at
rows and columns 255:261, one source line per slice assignment. -/
def gapsMaxipix (data mask : Mat) : Mat × Mat :=
  let d1 := setR data.rows data.cols data.entry 0 data.rows 255 261 0
  let d2 := setR data.rows data.cols d1 255 261 0 data.cols 0
  let m1 := setR mask.rows mask.cols mask.entry 0 mask.rows 255 261 1
  let m2 := setR mask.rows mask.cols m1 255 261 0 mask.cols 1
  (⟨data.rows, data.cols, d2⟩, ⟨mask.rows, mask.cols, m2⟩)

/-- Merlin mask gaps: cross bands at rows and columns 255:260. -/
def gapsMerlin (data mask : Mat) : Mat × Mat :=
  let d1 := setR data.rows data.cols data.entry 0 data.rows 255 260 0
  let d2 := setR data.rows data.cols d1 255 260 0 data.cols 0
  let m1 := setR mask.rows mask.cols mask.entry 0 mask.rows 255 260 1
  let m2 := setR mask.rows mask.cols m1 255 260 0 mask.cols 1
  (⟨data.rows, data.cols, d2⟩, ⟨mask.rows, mask.cols, m2⟩)

/-- Eiger4M mask gaps: one pixel border on the four sides, one vertical
band, three horizontal bands.  The slices -1: translate to start at
rows - 1 respectively cols - 1. -/
def gapsEiger4M (data mask : Mat) : Mat × Mat :=
  let d1 := setR data.rows data.cols data.entry 0 data.rows 0 1 0
  let d2 := setR data.rows data.cols d1 0 data.rows (data.cols - 1) data.cols 0
  let d3 := setR data.rows data.cols d2 0 1 0 data.cols 0
  let d4 := setR data.rows data.cols d3 (data.rows - 1) data.rows 0 data.cols 0
  let d5 := setR data.rows data.cols d4 0 data.rows 1029 1041 0
  let d6 := setR data.rows data.cols d5 513 552 0 data.cols 0
  let d7 := setR data.rows data.cols d6 1064 1103 0 data.cols 0
  let d8 := setR data.rows data.cols d7 1615 1654 0 data.cols 0
  let m1 := setR mask.rows mask.cols mask.entry 0 mask.rows 0 1 1
  let m2 := setR mask.rows mask.cols m1 0 mask.rows (mask.cols - 1) mask.cols 1
  let m3 := setR mask.rows mask.cols m2 0 1 0 mask.cols 1
  let m4 := setR mask.rows mask.cols m3 (mask.rows - 1) mask.rows 0 mask.cols 1
  let m5 := setR mask.rows mask.cols m4 0 mask.rows 1029 1041 1
  let m6 := setR mask.rows mask.cols m5 513 552 0 mask.cols 1
  let m7 := setR mask.rows mask.cols m6 1064 1103 0 mask.cols 1
  let m8 := setR mask.rows mask.cols m7 1615 1654 0 mask.cols 1
  (⟨data.rows, data.cols, d8⟩, ⟨mask.rows, mask.cols, m8⟩)

/-- Eiger2M mask gaps, one line per source assignment, in source order:
all data lines first, then all mask lines.  The data line for rows
511:552 uses the empty column slice :0 exactly as written in the source,
while the matching mask line covers all columns.  The two single column
assignments at indices 478 and 481 are integer indexed and hence bounds
checked by numpy. -/
def gapsEiger2M (data mask : Mat) : Except PyError (Mat × Mat) := do
  let d1 := setR data.rows data.cols data.entry 0 data.rows 255 259 0
  let d2 := setR data.rows data.cols d1 0 data.rows 513 517 0
  let d3 := setR data.rows data.cols d2 0 data.rows 771 775 0
  let d4 := setR data.rows data.cols d3 0 257 72 80 0
  let d5 := setR data.rows data.cols d4 255 259 0 data.cols 0
  let d6 := setR data.rows data.cols d5 511 552 0 0 0
  let d7 := setR data.rows data.cols d6 804 809 0 data.cols 0
  let d8 := setR data.rows data.cols d7 1061 1102 0 data.cols 0
  let d9 := setR data.rows data.cols d8 1355 1359 0 data.cols 0
  let d10 := setR data.rows data.cols d9 1611 1652 0 data.cols 0
  let d11 := setR data.rows data.cols d10 1905 1909 0 data.cols 0
  let d12 ← setCI data.rows data.cols d11 1248 1290 478 0
  let d13 ← setCI data.rows data.cols d12 1214 1298 481 0
  let d14 := setR data.rows data.cols d13 1649 1910 620 628 0
  let m1 := setR mask.rows mask.cols mask.entry 0 mask.rows 255 259 1
  let m2 := setR mask.rows mask.cols m1 0 mask.rows 513 517 1
  let m3 := setR mask.rows mask.cols m2 0 mask.rows 771 775 1
  let m4 := setR mask.rows mask.cols m3 0 257 72 80 1
  let m5 := setR mask.rows mask.cols m4 255 259 0 mask.cols 1
  let m6 := setR mask.rows mask.cols m5 511 552 0 mask.cols 1
  let m7 := setR mask.rows mask.cols m6 804 809 0 mask.cols 1
  let m8 := setR mask.rows mask.cols m7 1061 1102 0 mask.cols 1
  let m9 := setR mask.rows mask.cols m8 1355 1359 0 mask.cols 1
  let m10 := setR mask.rows mask.cols m9 1611 1652 0 mask.cols 1
  let m11 := setR mask.rows mask.cols m10 1905 1909 0 mask.cols 1
  let m12 ← setCI mask.rows mask.cols m11 1248 1290 478 1
  let m13 ← setCI mask.rows mask.cols m12 1214 1298 481 1
  let m14 := setR mask.rows mask.cols m13 1649 1910 620 628 1
  return (⟨data.rows, data.cols, d14⟩, ⟨mask.rows, mask.cols, m14⟩)

/-- Dispatch of mask gaps over the detector model, as realized by the
class hierarchy. -/
def maskGapsModel : DetectorModel → Mat → Mat → Except PyError (Mat × Mat)
  | .Maxipix, d, m => .ok (gapsMaxipix d m)
  | .Eiger2M, d, m => gapsEiger2M d m
  | .Eiger4M, d, m => .ok (gapsEiger4M d m)
  | .Timepix, d, m => gapsBase d m
  | .Merlin, d, m => .ok (gapsMerlin d m)
  | .Dummy, d, m => gapsBase d m

/-- Flatfield correction: multiply data by the flatfield when given,
after an exact shape check. -/
def flatfieldCorrection (data : Mat) (flatfield : Option Mat) : Except PyError Mat :=
  match flatfield with
  | none => .ok data
  | some f =>
      if f.rows = data.rows ∧ f.cols = data.cols then
        .ok ⟨data.rows, data.cols, fun i j => f.entry i j * data.entry i j⟩
      else .error (.valueError "flatfield and data must have the same shape")

/-- Background subtraction: subtract the background when given, after an
exact shape check. -/
def backgroundSubtraction (data : Mat) (background : Option Mat) : Except PyError Mat :=
  match background with
  | none => .ok data
  | some b =>
      if b.rows = data.rows ∧ b.cols = data.cols then
        .ok ⟨data.rows, data.cols, fun i j => data.entry i j - b.entry i j⟩
      else .error (.valueError "background and data must have the same shape")

/-- Check that every element of the array is 0 or 1.  The source compares
the count of zeros plus the count of ones with the total size, which is
equivalent. -/
def binary01 (h : Mat) : Bool :=
  decide (∀ i, i < h.rows → ∀ j, j < h.cols → h.entry i j = 0 ∨ h.entry i j = 1)

/-- Hotpixels correction: shape check against data, then the 0 and 1
content check, then zero data and set mask wherever hotpixels is 1.  The
mask line indexes mask with the boolean array hotpixels == 1, which numpy
only accepts when the shapes agree: a mask of a different shape raises
IndexError there, mirrored by the last branch. -/
def hotpixelsCorrection (data mask : Mat) (hotpixels : Option Mat) :
    Except PyError (Mat × Mat) :=
  match hotpixels with
  | none => .ok (data, mask)
  | some h =>
      if h.rows = data.rows ∧ h.cols = data.cols then
        if binary01 h then
          if h.rows = mask.rows ∧ h.cols = mask.cols then
            .ok (⟨data.rows, data.cols,
                  fun i j => if h.entry i j = 1 then 0 else data.entry i j⟩,
                 ⟨mask.rows, mask.cols,
                  fun i j => if h.entry i j = 1 then 1 else mask.entry i j⟩)
          else .error (.indexError "boolean index shape mismatch")
        else .error (.valueError "hotpixels should be an array of 0 and 1")
      else .error (.valueError "hotpixels and data must have the same shape")

/-- Saturation correction.  When a threshold is set, nb frames is
validated as a strictly positive integer, then the mask line runs before
the data line and both compare the still unmodified data against
threshold times nb frames.  The boolean index on mask requires matching
shapes, mirrored by the IndexError branch. -/
def saturationCorrection (threshold : Option ℚ) (data mask : Mat) (nbFrames : Int) :
    Except PyError (Mat × Mat) :=
  match threshold with
  | none => .ok (data, mask)
  | some t =>
      if 0 < nbFrames then
        if data.rows = mask.rows ∧ data.cols = mask.cols then
          .ok (⟨data.rows, data.cols,
                fun i j => if t * (nbFrames : ℚ) < data.entry i j then 0 else data.entry i j⟩,
               ⟨mask.rows, mask.cols,
                fun i j => if t * (nbFrames : ℚ) < data.entry i j then 1 else mask.entry i j⟩)
        else .error (.indexError "boolean index shape mismatch")
      else .error (.valueError "nb_frames")

/-- The linearity stage of mask detector.  The source applies the
configured function directly to the 2D data when it is not None.  When
the result is not a 2D array, the next stage raises the ValueError of the
flatfield correction ndim check; that check is folded in here. -/
def linearityStep (f : Option (NdArr → NdArr)) (data : Mat) : Except PyError Mat :=
  match f with
  | none => .ok data
  | some F =>
      match ndToMat2 (F (matToNd data)) with
      | some d1 => .ok d1
      | none => .error (.valueError "data should be a 2D array")

/-- The helper linearity correction of the Detector class: convert to
float, flatten, apply the function to the 1D array and reshape back to
the 2D shape.  Reshape raises when the returned size differs.  This
helper is present in the source but is not invoked by mask detector. -/
def linearityCorrection (f : Option (NdArr → NdArr)) (data : Mat) : Except PyError Mat :=
  match f with
  | none => .ok data
  | some F =>
      let res := F ⟨[data.rows * data.cols], flattenMat data⟩
      if res.flat.length = data.rows * data.cols then
        .ok ⟨data.rows, data.cols, fun i j => res.flat.getD (i * data.cols + j) 0⟩
      else .error (.valueError "cannot reshape")

/-- The mask detector pipeline: shape check of data against mask, then
linearity, flatfield, background, hotpixels, model gaps and saturation,
in the fixed source order. -/
def maskDetector (model : DetectorModel) (f : Option (NdArr → NdArr)) (data mask : Mat)
    (nbFrames : Int) (flatfield background hotpixels : Option Mat) :
    Except PyError (Mat × Mat) :=
  if data.rows = mask.rows ∧ data.cols = mask.cols then do
    let d1 ← linearityStep f data
    let d2 ← flatfieldCorrection d1 flatfield
    let d3 ← backgroundSubtraction d2 background
    let (d4, m1) ← hotpixelsCorrection d3 mask hotpixels
    let (d5, m2) ← maskGapsModel model d4 m1
    saturationCorrection (saturationThreshold model) d5 m2 nbFrames
  else .error (.valueError "data and mask must have the same shape")

/-- Configuration state relevant to the roi and sum roi setters. -/
structure DetConfig where
  unbinnedPixelNumber : Nat × Nat
  preprocessingBinning : Nat × Nat × Nat
  roi : List Int
  sumRoi : List Int

/-- Vertical pixel count: unbinned count floor divided by the vertical
preprocessing binning factor. -/
def nbPixelY (s : DetConfig) : Nat :=
  s.unbinnedPixelNumber.1 / s.preprocessingBinning.2.1

/-- Horizontal pixel count: unbinned count floor divided by the
horizontal preprocessing binning factor. -/
def nbPixelX (s : DetConfig) : Nat :=
  s.unbinnedPixelNumber.2 / s.preprocessingBinning.2.2

/-- The roi setter: a falsy value, None or an empty sequence, defaults to
the full preprocessing binned frame, then the container is validated as
four integers. -/
def roiSet (s : DetConfig) (value : Option (List Int)) : Except PyError DetConfig :=
  let v : List Int :=
    match value with
    | none => [0, (nbPixelY s : Int), 0, (nbPixelX s : Int)]
    | some l => if l.isEmpty then [0, (nbPixelY s : Int), 0, (nbPixelX s : Int)] else l
  if v.length = 4 then .ok { s with roi := v }
  else .error (.valueError "Detector.roi")

/-- The sum roi setter: a falsy value defaults to roi when roi is itself
truthy, else to the full frame, then the container is validated as four
integers. -/
def sumRoiSet (s : DetConfig) (value : Option (List Int)) : Except PyError DetConfig :=
  let dflt : List Int :=
    if s.roi.isEmpty then [0, (nbPixelY s : Int), 0, (nbPixelX s : Int)] else s.roi
  let v : List Int :=
    match value with
    | none => dflt
    | some l => if l.isEmpty then dflt else l
  if v.length = 4 then .ok { s with sumRoi := v }
  else .error (.valueError "Detector.sum_roi")

/-- The factory: map a model name to its detector model, raising
NotImplementedError on an unrecognized name, with the message naming the
string. -/
def createDetector (name : String) : Except PyError DetectorModel :=
  if name = "Maxipix" then .ok .Maxipix
  else if name = "Eiger2M" then .ok .Eiger2M
  else if name = "Eiger4M" then .ok .Eiger4M
  else if name = "Timepix" then .ok .Timepix
  else if name = "Merlin" then .ok .Merlin
  else if name = "Dummy" then .ok .Dummy
  else .error (.notImplementedError ("No implementation for the " ++ name ++ " detector"))


/-- Membership of the pixel (i, j) in the rectangle r, clamped to a frame
of shape nrows by ncols, matching the condition of setR. -/
def inRegion (nrows ncols : Nat) (r : Nat × Nat × Nat × Nat) (i j : Nat) : Prop :=
  r.1 ≤ i ∧ i < min r.2.1 nrows ∧ r.2.2.1 ≤ j ∧ j < min r.2.2.2 ncols

instance (nrows ncols : Nat) (r : Nat × Nat × Nat × Nat) (i j : Nat) :
    Decidable (inRegion nrows ncols r i j) := by
  unfold inRegion
  exact inferInstance

/-- Write the value v over a list of rectangles, left to right, on a
frame of shape nrows by ncols. -/
def applyRegions (nrows ncols : Nat) (regs : List (Nat × Nat × Nat × Nat)) (v : ℚ)
    (e : Nat → Nat → ℚ) : Nat → Nat → ℚ :=
  regs.foldl (fun acc r => setR nrows ncols acc r.1 r.2.1 r.2.2.1 r.2.2.2 v) e

/-- The gap rectangles of Maxipix on a frame of the given shape. -/
def maxipixRegs (nr nc : Nat) : List (Nat × Nat × Nat × Nat) :=
  [(0, nr, 255, 261), (255, 261, 0, nc)]

/-- The gap rectangles of Merlin on a frame of the given shape. -/
def merlinRegs (nr nc : Nat) : List (Nat × Nat × Nat × Nat) :=
  [(0, nr, 255, 260), (255, 260, 0, nc)]

/-- The gap rectangles of Eiger4M on a frame of the given shape. -/
def eiger4mRegs (nr nc : Nat) : List (Nat × Nat × Nat × Nat) :=
  [(0, nr, 0, 1), (0, nr, nc - 1, nc), (0, 1, 0, nc), (nr - 1, nr, 0, nc),
   (0, nr, 1029, 1041), (513, 552, 0, nc), (1064, 1103, 0, nc), (1615, 1654, 0, nc)]

/-- The rectangles zeroed in data by the Eiger2M gap chain: note the
empty rectangle for rows 511:552 coming from the empty column slice in
the source, and the two one column rectangles from the integer indexed
assignments. -/
def e2mDataRegs (nr nc : Nat) : List (Nat × Nat × Nat × Nat) :=
  [(0, nr, 255, 259), (0, nr, 513, 517), (0, nr, 771, 775), (0, 257, 72, 80),
   (255, 259, 0, nc), (511, 552, 0, 0), (804, 809, 0, nc), (1061, 1102, 0, nc),
   (1355, 1359, 0, nc), (1611, 1652, 0, nc), (1905, 1909, 0, nc),
   (1248, 1290, 478, 479), (1214, 1298, 481, 482), (1649, 1910, 620, 628)]

/-- The rectangles set to 1 in mask by the Eiger2M gap chain: the row
band 511:552 covers all columns here. -/
def e2mMaskRegs (nr nc : Nat) : List (Nat × Nat × Nat × Nat) :=
  [(0, nr, 255, 259), (0, nr, 513, 517), (0, nr, 771, 775), (0, 257, 72, 80),
   (255, 259, 0, nc), (511, 552, 0, nc), (804, 809, 0, nc), (1061, 1102, 0, nc),
   (1355, 1359, 0, nc), (1611, 1652, 0, nc), (1905, 1909, 0, nc),
   (1248, 1290, 478, 479), (1214, 1298, 481, 482), (1649, 1910, 620, 628)]

/-- The successful outcome of the Eiger2M data chain as a single region
write. -/
def e2mData (d : Mat) : Mat :=
  ⟨d.rows, d.cols, applyRegions d.rows d.cols (e2mDataRegs d.rows d.cols) 0 d.entry⟩

/-- The successful outcome of the Eiger2M mask chain as a single region
write. -/
def e2mMask (m : Mat) : Mat :=
  ⟨m.rows, m.cols, applyRegions m.rows m.cols (e2mMaskRegs m.rows m.cols) 1 m.entry⟩

/-- A callable whose outcome depends on the dimension of its input:
useful to separate applying a function to the 2D array from applying it
to the flattened 1D array. -/
def fShape : NdArr → NdArr :=
  fun a => ⟨a.shape, a.flat.map fun _ => if a.shape.length = 1 then 7 else 3⟩

theorem matExt (a b : Mat) (hr : a.rows = b.rows) (hc : a.cols = b.cols)
    (he : ∀ i j, a.entry i j = b.entry i j) : a = b := by
  obtain ⟨r1, c1, e1⟩ := a
  obtain ⟨r2, c2, e2⟩ := b
  simp only [Mat.mk.injEq]
  exact ⟨hr, hc, funext fun i => funext fun j => he i j⟩

@[simp] theorem ok_bind {ε α β : Type} (a : α) (g : α → Except ε β) :
    (Except.ok a : Except ε α) >>= g = g a := rfl

@[simp] theorem error_bind {ε α β : Type} (e : ε) (g : α → Except ε β) :
    (Except.error e : Except ε α) >>= g = Except.error e := rfl

@[simp] theorem pure_ok {ε α : Type} (a : α) :
    (pure a : Except ε α) = Except.ok a := rfl

theorem exceptBindOk {ε α β : Type} {x : Except ε α} {g : α → Except ε β} {b : β}
    (h : x >>= g = .ok b) : ∃ a, x = .ok a ∧ g a = .ok b := by
  cases x with
  | error e => exact absurd h (by simp)
  | ok a => exact ⟨a, rfl, h⟩

theorem applyRegions_apply (nrows ncols : Nat) (regs : List (Nat × Nat × Nat × Nat))
    (v : ℚ) (e : Nat → Nat → ℚ) (i j : Nat) :
    applyRegions nrows ncols regs v e i j =
      if ∃ r ∈ regs, inRegion nrows ncols r i j then v else e i j := by
  induction regs generalizing e with
  | nil => simp [applyRegions]
  | cons a rs ih =>
      show applyRegions nrows ncols rs v
          (setR nrows ncols e a.1 a.2.1 a.2.2.1 a.2.2.2 v) i j = _
      rw [ih]
      have hsetR : setR nrows ncols e a.1 a.2.1 a.2.2.1 a.2.2.2 v i j =
          if inRegion nrows ncols a i j then v else e i j := rfl
      rw [hsetR]
      by_cases hrs : ∃ r ∈ rs, inRegion nrows ncols r i j
      · have hcons : ∃ r ∈ a :: rs, inRegion nrows ncols r i j := by
          obtain ⟨r, hmem, hin⟩ := hrs
          exact ⟨r, List.mem_cons_of_mem a hmem, hin⟩
        rw [if_pos hrs, if_pos hcons]
      · by_cases ha : inRegion nrows ncols a i j
        · have hcons : ∃ r ∈ a :: rs, inRegion nrows ncols r i j :=
            ⟨a, List.mem_cons_self a rs, ha⟩
          rw [if_neg hrs, if_pos ha, if_pos hcons]
        · have hcons : ¬ ∃ r ∈ a :: rs, inRegion nrows ncols r i j := by
            rintro ⟨r, hmem, hin⟩
            rcases List.mem_cons.mp hmem with h | h
            · exact ha (h ▸ hin)
            · exact hrs ⟨r, h, hin⟩
          rw [if_neg hrs, if_neg ha, if_neg hcons]

theorem applyRegions_idem (nrows ncols : Nat) (regs : List (Nat × Nat × Nat × Nat))
    (v : ℚ) (e : Nat → Nat → ℚ) (i j : Nat) :
    applyRegions nrows ncols regs v (applyRegions nrows ncols regs v e) i j =
      applyRegions nrows ncols regs v e i j := by
  rw [applyRegions_apply, applyRegions_apply]
  by_cases h : ∃ r ∈ regs, inRegion nrows ncols r i j
  · simp only [if_pos h]
  · simp only [if_neg h]

theorem applyRegions_of_eq (nrows ncols : Nat) (regs : List (Nat × Nat × Nat × Nat))
    (v : ℚ) (e : Nat → Nat → ℚ) (i j : Nat) (he : e i j = v) :
    applyRegions nrows ncols regs v e i j = v := by
  rw [applyRegions_apply]
  by_cases h : ∃ r ∈ regs, inRegion nrows ncols r i j
  · rw [if_pos h]
  · rw [if_neg h, he]

theorem applyRegions_notin (nrows ncols : Nat) (regs : List (Nat × Nat × Nat × Nat))
    (v : ℚ) (e : Nat → Nat → ℚ) (i j : Nat)
    (h : ∀ r ∈ regs, ¬ inRegion nrows ncols r i j) :
    applyRegions nrows ncols regs v e i j = e i j := by
  rw [applyRegions_apply, if_neg]
  rintro ⟨r, hm, hi⟩
  exact h r hm hi

theorem gapsMaxipix_eq (d m : Mat) :
    gapsMaxipix d m =
      (⟨d.rows, d.cols, applyRegions d.rows d.cols (maxipixRegs d.rows d.cols) 0 d.entry⟩,
       ⟨m.rows, m.cols, applyRegions m.rows m.cols (maxipixRegs m.rows m.cols) 1 m.entry⟩) := by
  simp only [gapsMaxipix, applyRegions, maxipixRegs, List.foldl_cons, List.foldl_nil]

theorem gapsMerlin_eq (d m : Mat) :
    gapsMerlin d m =
      (⟨d.rows, d.cols, applyRegions d.rows d.cols (merlinRegs d.rows d.cols) 0 d.entry⟩,
       ⟨m.rows, m.cols, applyRegions m.rows m.cols (merlinRegs m.rows m.cols) 1 m.entry⟩) := by
  simp only [gapsMerlin, applyRegions, merlinRegs, List.foldl_cons, List.foldl_nil]

theorem gapsEiger4M_eq (d m : Mat) :
    gapsEiger4M d m =
      (⟨d.rows, d.cols, applyRegions d.rows d.cols (eiger4mRegs d.rows d.cols) 0 d.entry⟩,
       ⟨m.rows, m.cols, applyRegions m.rows m.cols (eiger4mRegs m.rows m.cols) 1 m.entry⟩) := by
  simp only [gapsEiger4M, applyRegions, eiger4mRegs, List.foldl_cons, List.foldl_nil]

theorem gapsEiger2M_ok (data mask : Mat) (h1 : 478 < data.cols) (h2 : 481 < data.cols)
    (h3 : 478 < mask.cols) (h4 : 481 < mask.cols) :
    gapsEiger2M data mask = .ok (e2mData data, e2mMask mask) := by
  simp only [gapsEiger2M, setCI, h1, h2, h3, h4, if_true, ok_bind, pure_ok]
  simp only [e2mData, e2mMask, e2mDataRegs, e2mMaskRegs, applyRegions,
    List.foldl_cons, List.foldl_nil]

theorem gapsEiger2M_err478 (data mask : Mat) (h1 : ¬ 478 < data.cols) :
    gapsEiger2M data mask = .error (.indexError "index out of bounds") := by
  simp only [gapsEiger2M, setCI, h1, if_false, ok_bind, error_bind]

theorem gapsEiger2M_err481 (data mask : Mat) (h1 : 478 < data.cols)
    (h2 : ¬ 481 < data.cols) :
    gapsEiger2M data mask = .error (.indexError "index out of bounds") := by
  simp only [gapsEiger2M, setCI, h1, h2, if_true, if_false, ok_bind, error_bind]

theorem gapsEiger2M_err478m (data mask : Mat) (h1 : 478 < data.cols)
    (h2 : 481 < data.cols) (h3 : ¬ 478 < mask.cols) :
    gapsEiger2M data mask = .error (.indexError "index out of bounds") := by
  simp only [gapsEiger2M, setCI, h1, h2, h3, if_true, if_false, ok_bind, error_bind]

theorem gapsEiger2M_err481m (data mask : Mat) (h1 : 478 < data.cols)
    (h2 : 481 < data.cols) (h3 : 478 < mask.cols) (h4 : ¬ 481 < mask.cols) :
    gapsEiger2M data mask = .error (.indexError "index out of bounds") := by
  simp only [gapsEiger2M, setCI, h1, h2, h3, h4, if_true, if_false, ok_bind, error_bind]

theorem gapsMaxipix_idem (d m : Mat) :
    gapsMaxipix (gapsMaxipix d m).1 (gapsMaxipix d m).2 = gapsMaxipix d m := by
  rw [gapsMaxipix_eq d m]
  rw [gapsMaxipix_eq]
  dsimp only
  refine Prod.ext (matExt _ _ rfl rfl fun i j => ?_) (matExt _ _ rfl rfl fun i j => ?_) <;>
    (dsimp only; exact applyRegions_idem _ _ _ _ _ i j)

theorem gapsMerlin_idem (d m : Mat) :
    gapsMerlin (gapsMerlin d m).1 (gapsMerlin d m).2 = gapsMerlin d m := by
  rw [gapsMerlin_eq d m]
  rw [gapsMerlin_eq]
  dsimp only
  refine Prod.ext (matExt _ _ rfl rfl fun i j => ?_) (matExt _ _ rfl rfl fun i j => ?_) <;>
    (dsimp only; exact applyRegions_idem _ _ _ _ _ i j)

theorem gapsEiger4M_idem (d m : Mat) :
    gapsEiger4M (gapsEiger4M d m).1 (gapsEiger4M d m).2 = gapsEiger4M d m := by
  rw [gapsEiger4M_eq d m]
  rw [gapsEiger4M_eq]
  dsimp only
  refine Prod.ext (matExt _ _ rfl rfl fun i j => ?_) (matExt _ _ rfl rfl fun i j => ?_) <;>
    (dsimp only; exact applyRegions_idem _ _ _ _ _ i j)

theorem e2mData_idem (d : Mat) : e2mData (e2mData d) = e2mData d := by
  refine matExt _ _ rfl rfl fun i j => ?_
  show applyRegions d.rows d.cols (e2mDataRegs d.rows d.cols) 0
      ((e2mData d).entry) i j = _
  exact applyRegions_idem _ _ _ _ _ i j

theorem e2mMask_idem (m : Mat) : e2mMask (e2mMask m) = e2mMask m := by
  refine matExt _ _ rfl rfl fun i j => ?_
  show applyRegions m.rows m.cols (e2mMaskRegs m.rows m.cols) 1
      ((e2mMask m).entry) i j = _
  exact applyRegions_idem _ _ _ _ _ i j

/-- C5: for every detector model and every 2D data and mask pair of equal
shape, gap masking is idempotent: running the gap step again on its own
output gives the same outcome as running it once. -/
theorem gap_masking_idempotent (model : DetectorModel) (d m : Mat)
    (h : d.rows = m.rows ∧ d.cols = m.cols) :
    (maskGapsModel model d m).bind (fun p => maskGapsModel model p.1 p.2) =
      maskGapsModel model d m := by
  obtain ⟨hr, hc⟩ := h
  cases model with
  | Maxipix =>
      show Except.bind (.ok (gapsMaxipix d m)) _ = _
      rw [Except.bind]
      show maskGapsModel _ _ _ = _
      simp only [maskGapsModel]
      rw [gapsMaxipix_idem]
  | Merlin =>
      show Except.bind (.ok (gapsMerlin d m)) _ = _
      rw [Except.bind]
      show maskGapsModel _ _ _ = _
      simp only [maskGapsModel]
      rw [gapsMerlin_idem]
  | Eiger4M =>
      show Except.bind (.ok (gapsEiger4M d m)) _ = _
      rw [Except.bind]
      show maskGapsModel _ _ _ = _
      simp only [maskGapsModel]
      rw [gapsEiger4M_idem]
  | Timepix => rfl
  | Dummy => rfl
  | Eiger2M =>
      show (gapsEiger2M d m).bind _ = gapsEiger2M d m
      by_cases h1 : 478 < d.cols
      · by_cases h2 : 481 < d.cols
        · rw [gapsEiger2M_ok d m h1 h2 (hc ▸ h1) (hc ▸ h2)]
          rw [Except.bind]
          show maskGapsModel _ _ _ = _
          simp only [maskGapsModel]
          rw [gapsEiger2M_ok (e2mData d) (e2mMask m) h1 h2 (hc ▸ h1) (hc ▸ h2),
            e2mData_idem, e2mMask_idem]
        · rw [gapsEiger2M_err481 d m h1 h2]
          rfl
      · rw [gapsEiger2M_err478 d m h1]
        rfl

/-- Witness for C5 at a concrete one by one frame on the Maxipix model. -/
theorem gap_masking_idempotent_witness :
    (maskGapsModel .Maxipix ⟨1, 1, fun _ _ => 5⟩ ⟨1, 1, fun _ _ => 0⟩).bind
        (fun p => maskGapsModel .Maxipix p.1 p.2) =
      maskGapsModel .Maxipix ⟨1, 1, fun _ _ => 5⟩ ⟨1, 1, fun _ _ => 0⟩ :=
  gap_masking_idempotent .Maxipix ⟨1, 1, fun _ _ => 5⟩ ⟨1, 1, fun _ _ => 0⟩ ⟨rfl, rfl⟩

/-- C1 (failing input evidence): on a full size Eiger2M frame, 2164 by
1030, with data all 1 and mask all 0, the gap step leaves data equal to 1
at pixel (511, 0) while setting mask to 1 there: the pixel is newly
masked but not newly zeroed, so the set of newly zeroed data pixels and
the set of newly masked pixels differ.  The data line for rows 511:552
carries the empty column slice :0 while the matching mask line covers
every column. -/
theorem eiger2m_gap_typo_entries :
    (gapsEiger2M ⟨2164, 1030, fun _ _ => 1⟩ ⟨2164, 1030, fun _ _ => 0⟩).map
        (fun p => (p.1.entry 511 0, p.2.entry 511 0)) = .ok ((1 : ℚ), (1 : ℚ)) := rfl

theorem hotMono {d m : Mat} {hp : Option Mat} {p : Mat × Mat}
    (h : hotpixelsCorrection d m hp = .ok p) {i j : Nat} (hm : m.entry i j = 1) :
    p.2.entry i j = 1 := by
  cases hp with
  | none =>
      simp only [hotpixelsCorrection, Except.ok.injEq] at h
      subst h
      exact hm
  | some hMat =>
      simp only [hotpixelsCorrection] at h
      split at h
      · split at h
        · split at h
          · simp only [Except.ok.injEq] at h
            subst h
            dsimp only
            split
            · rfl
            · exact hm
          · exact absurd h (by simp)
        · exact absurd h (by simp)
      · exact absurd h (by simp)

theorem satMono {thr : Option ℚ} {d m : Mat} {nb : Int} {p : Mat × Mat}
    (h : saturationCorrection thr d m nb = .ok p) {i j : Nat}
    (hm : m.entry i j = 1) : p.2.entry i j = 1 := by
  cases thr with
  | none =>
      simp only [saturationCorrection, Except.ok.injEq] at h
      subst h
      exact hm
  | some t =>
      simp only [saturationCorrection] at h
      split at h
      · split at h
        · simp only [Except.ok.injEq] at h
          subst h
          dsimp only
          split
          · rfl
          · exact hm
        · exact absurd h (by simp)
      · exact absurd h (by simp)

theorem gapsMono {model : DetectorModel} {d m : Mat} {p : Mat × Mat}
    (h : maskGapsModel model d m = .ok p) {i j : Nat} (hm : m.entry i j = 1) :
    p.2.entry i j = 1 := by
  cases model with
  | Timepix =>
      simp only [maskGapsModel, gapsBase, Except.ok.injEq] at h
      subst h
      exact hm
  | Dummy =>
      simp only [maskGapsModel, gapsBase, Except.ok.injEq] at h
      subst h
      exact hm
  | Maxipix =>
      simp only [maskGapsModel, gapsMaxipix_eq, Except.ok.injEq] at h
      subst h
      exact applyRegions_of_eq _ _ _ _ _ i j hm
  | Merlin =>
      simp only [maskGapsModel, gapsMerlin_eq, Except.ok.injEq] at h
      subst h
      exact applyRegions_of_eq _ _ _ _ _ i j hm
  | Eiger4M =>
      simp only [maskGapsModel, gapsEiger4M_eq, Except.ok.injEq] at h
      subst h
      exact applyRegions_of_eq _ _ _ _ _ i j hm
  | Eiger2M =>
      simp only [maskGapsModel] at h
      by_cases h1 : 478 < d.cols
      · by_cases h2 : 481 < d.cols
        · by_cases h3 : 478 < m.cols
          · by_cases h4 : 481 < m.cols
            · rw [gapsEiger2M_ok d m h1 h2 h3 h4] at h
              simp only [Except.ok.injEq] at h
              subst h
              exact applyRegions_of_eq _ _ _ _ _ i j hm
            · exact absurd h (by rw [gapsEiger2M_err481m d m h1 h2 h3 h4]; simp)
          · exact absurd h (by rw [gapsEiger2M_err478m d m h1 h2 h3]; simp)
        · exact absurd h (by rw [gapsEiger2M_err481 d m h1 h2]; simp)
      · exact absurd h (by rw [gapsEiger2M_err478 d m h1]; simp)

/-- C8: for every detector model and every call to mask detector that
returns normally, every pixel whose mask value was 1 on input still has
mask value 1 in the returned mask: the pipeline only ever sets mask
entries to 1, never clears them. -/
theorem mask_monotone (model : DetectorModel) (f : Option (NdArr → NdArr)) (d m : Mat)
    (nb : Int) (ff bg hp : Option Mat) (p : Mat × Mat)
    (hres : maskDetector model f d m nb ff bg hp = .ok p) (i j : Nat)
    (hm : m.entry i j = 1) : p.2.entry i j = 1 := by
  unfold maskDetector at hres
  split at hres
  · obtain ⟨d1, h1, hres⟩ := exceptBindOk hres
    obtain ⟨d2, h2, hres⟩ := exceptBindOk hres
    obtain ⟨d3, h3, hres⟩ := exceptBindOk hres
    obtain ⟨pm, h4, hres⟩ := exceptBindOk hres
    obtain ⟨pm1, pm2⟩ := pm
    obtain ⟨pg, h5, hres⟩ := exceptBindOk hres
    obtain ⟨pg1, pg2⟩ := pg
    have hb1 : pm2.entry i j = 1 := hotMono h4 hm
    have hb2 : pg2.entry i j = 1 := gapsMono h5 hb1
    exact satMono hres hb2
  · exact absurd hres (by simp)

/-- Witness for C8 on a concrete Timepix call with the mask set at the
origin. -/
theorem mask_monotone_witness :
    ((⟨1, 1, fun _ _ => 5⟩ : Mat), (⟨1, 1, fun _ _ => 1⟩ : Mat)).2.entry 0 0 = 1 :=
  mask_monotone .Timepix none ⟨1, 1, fun _ _ => 5⟩ ⟨1, 1, fun _ _ => 1⟩ 1
    none none none (⟨1, 1, fun _ _ => 5⟩, ⟨1, 1, fun _ _ => 1⟩) rfl 0 0 rfl

theorem satSome (t : ℚ) (nb : Int) (hnb : 0 < nb) (dd mm : Mat)
    (hrr : dd.rows = mm.rows) (hcc : dd.cols = mm.cols) :
    saturationCorrection (some t) dd mm nb =
      .ok (⟨dd.rows, dd.cols,
            fun i j => if t * (nb : ℚ) < dd.entry i j then 0 else dd.entry i j⟩,
           ⟨mm.rows, mm.cols,
            fun i j => if t * (nb : ℚ) < dd.entry i j then 1 else mm.entry i j⟩) := by
  simp only [saturationCorrection]
  rw [if_pos hnb, if_pos (show dd.rows = mm.rows ∧ dd.cols = mm.cols from ⟨hrr, hcc⟩)]

/-- C3: for every detector model with a set saturation threshold, every
strictly positive nb frames and every data and mask pair of equal shape,
the saturation step succeeds and, pixel by pixel, zeroes data and sets
mask to 1 exactly where data exceeds threshold times nb frames, leaving
both arrays unchanged elsewhere; in particular it is a no-op when data is
below the bound everywhere. -/
theorem saturation_exact (model : DetectorModel) (t : ℚ)
    (ht : saturationThreshold model = some t) (nb : Int) (hnb : 0 < nb) (d m : Mat)
    (hr : d.rows = m.rows) (hc : d.cols = m.cols) :
    ∃ p, saturationCorrection (saturationThreshold model) d m nb = .ok p ∧
      ∀ i j, (p.1.entry i j = if t * (nb : ℚ) < d.entry i j then 0 else d.entry i j) ∧
             (p.2.entry i j = if t * (nb : ℚ) < d.entry i j then 1 else m.entry i j) := by
  rw [ht]
  refine ⟨(⟨d.rows, d.cols, fun i j => if t * (nb : ℚ) < d.entry i j then 0 else d.entry i j⟩,
           ⟨m.rows, m.cols, fun i j => if t * (nb : ℚ) < d.entry i j then 1 else m.entry i j⟩),
         ?_, fun i j => ⟨rfl, rfl⟩⟩
  simp only [saturationCorrection]
  rw [if_pos hnb, if_pos (show d.rows = m.rows ∧ d.cols = m.cols from ⟨hr, hc⟩)]

/-- Witness for C3 on a concrete Maxipix call with one saturated pixel. -/
theorem saturation_exact_witness :
    ∃ p, saturationCorrection (saturationThreshold .Maxipix)
        ⟨1, 1, fun _ _ => 2000000⟩ ⟨1, 1, fun _ _ => 0⟩ 1 = .ok p ∧
      ∀ i j, (p.1.entry i j =
          if (1000000 : ℚ) * ((1 : Int) : ℚ) < (⟨1, 1, fun _ _ => 2000000⟩ : Mat).entry i j
          then 0 else (⟨1, 1, fun _ _ => 2000000⟩ : Mat).entry i j) ∧
        (p.2.entry i j =
          if (1000000 : ℚ) * ((1 : Int) : ℚ) < (⟨1, 1, fun _ _ => 2000000⟩ : Mat).entry i j
          then 1 else (⟨1, 1, fun _ _ => 0⟩ : Mat).entry i j) :=
  saturation_exact .Maxipix 1000000 rfl 1 (by decide)
    ⟨1, 1, fun _ _ => 2000000⟩ ⟨1, 1, fun _ _ => 0⟩ rfl rfl

/-- C9: when the detector model defines no saturation threshold, the nb
frames argument is never validated and the outcome of mask detector does
not depend on it. -/
theorem nb_frames_ignored (model : DetectorModel)
    (hthr : saturationThreshold model = none) (f : Option (NdArr → NdArr)) (d m : Mat)
    (nb nb2 : Int) (ff bg hp : Option Mat) :
    maskDetector model f d m nb ff bg hp = maskDetector model f d m nb2 ff bg hp := by
  unfold maskDetector
  rw [hthr]
  simp only [saturationCorrection]

/-- Witness for C9: a Timepix call with nb frames -5 equals the same call
with nb frames 7. -/
theorem nb_frames_ignored_witness :
    maskDetector .Timepix none ⟨1, 1, fun _ _ => 4⟩ ⟨1, 1, fun _ _ => 0⟩ (-5)
        none none none =
      maskDetector .Timepix none ⟨1, 1, fun _ _ => 4⟩ ⟨1, 1, fun _ _ => 0⟩ 7
        none none none :=
  nb_frames_ignored .Timepix rfl none ⟨1, 1, fun _ _ => 4⟩ ⟨1, 1, fun _ _ => 0⟩
    (-5) 7 none none none

theorem hotBadErr {h : Mat}
    (hbad : ∃ i, i < h.rows ∧ ∃ j, j < h.cols ∧ h.entry i j ≠ 0 ∧ h.entry i j ≠ 1)
    (d m : Mat) :
    ∃ msg, hotpixelsCorrection d m (some h) = .error (.valueError msg) := by
  simp only [hotpixelsCorrection]
  by_cases hsh : h.rows = d.rows ∧ h.cols = d.cols
  · rw [if_pos hsh]
    have hb : binary01 h = false := by
      simp only [binary01, decide_eq_false_iff_not]
      intro hall
      obtain ⟨i, hi, j, hj, h0, h1⟩ := hbad
      rcases hall i hi j hj with hx | hx
      · exact h0 hx
      · exact h1 hx
    rw [hb]
    exact ⟨_, rfl⟩
  · rw [if_neg hsh]
    exact ⟨_, rfl⟩

theorem linearityStepErr (f : Option (NdArr → NdArr)) (d : Mat) (e : PyError)
    (h : linearityStep f d = .error e) : isValueError e = true := by
  cases f with
  | none => simp [linearityStep] at h
  | some F =>
      simp only [linearityStep] at h
      cases hnd : ndToMat2 (F (matToNd d)) with
      | some d1 => rw [hnd] at h; simp at h
      | none =>
          rw [hnd] at h
          simp only [Except.error.injEq] at h
          subst h
          rfl

theorem flatfieldErr (d : Mat) (ff : Option Mat) (e : PyError)
    (h : flatfieldCorrection d ff = .error e) : isValueError e = true := by
  cases ff with
  | none => simp [flatfieldCorrection] at h
  | some f =>
      simp only [flatfieldCorrection] at h
      split at h
      · simp at h
      · simp only [Except.error.injEq] at h
        subst h
        rfl

theorem backgroundErr (d : Mat) (bg : Option Mat) (e : PyError)
    (h : backgroundSubtraction d bg = .error e) : isValueError e = true := by
  cases bg with
  | none => simp [backgroundSubtraction] at h
  | some b =>
      simp only [backgroundSubtraction] at h
      split at h
      · simp at h
      · simp only [Except.error.injEq] at h
        subst h
        rfl

/-- C4: a hotpixels array holding any value other than 0 or 1 always
makes the hotpixel step raise a ValueError, whatever the shapes, and
hence mask detector called with such a hotpixels argument always fails
with a ValueError; while a 0 and 1 valued hotpixels array of the shape
of data, and of mask as the pipeline guarantees, zeroes data and sets
mask to 1 exactly where it holds 1. -/
theorem hotpixels_validation (d m h : Mat) :
    ((∃ i, i < h.rows ∧ ∃ j, j < h.cols ∧ h.entry i j ≠ 0 ∧ h.entry i j ≠ 1) →
      (∃ msg, hotpixelsCorrection d m (some h) = .error (.valueError msg)) ∧
      (∀ model f nb ff bg, ∃ e,
        maskDetector model f d m nb ff bg (some h) = .error e ∧ isValueError e = true)) ∧
    (h.rows = d.rows → h.cols = d.cols → h.rows = m.rows → h.cols = m.cols →
      binary01 h = true →
      ∃ p, hotpixelsCorrection d m (some h) = .ok p ∧
        ∀ i j, p.1.entry i j = (if h.entry i j = 1 then 0 else d.entry i j) ∧
               p.2.entry i j = (if h.entry i j = 1 then 1 else m.entry i j)) := by
  constructor
  · intro hbad
    refine ⟨hotBadErr hbad d m, ?_⟩
    intro model f nb ff bg
    unfold maskDetector
    split
    · cases hl : linearityStep f d with
      | error e =>
          rw [error_bind]
          exact ⟨e, rfl, linearityStepErr f d e hl⟩
      | ok d1 =>
          rw [ok_bind]
          cases hff : flatfieldCorrection d1 ff with
          | error e =>
              rw [error_bind]
              exact ⟨e, rfl, flatfieldErr d1 ff e hff⟩
          | ok d2 =>
              rw [ok_bind]
              cases hbg : backgroundSubtraction d2 bg with
              | error e =>
                  rw [error_bind]
                  exact ⟨e, rfl, backgroundErr d2 bg e hbg⟩
              | ok d3 =>
                  rw [ok_bind]
                  obtain ⟨msg, hmsg⟩ := hotBadErr hbad d3 m
                  rw [hmsg, error_bind]
                  exact ⟨.valueError msg, rfl, rfl⟩
    · exact ⟨.valueError "data and mask must have the same shape", rfl, rfl⟩
  · intro hrd hcd hrm hcm hb
    simp only [hotpixelsCorrection]
    rw [if_pos (show h.rows = d.rows ∧ h.cols = d.cols from ⟨hrd, hcd⟩), if_pos hb,
      if_pos (show h.rows = m.rows ∧ h.cols = m.cols from ⟨hrm, hcm⟩)]
    exact ⟨_, rfl, fun i j => ⟨rfl, rfl⟩⟩

/-- Witness for C4: a one by one hotpixels array holding 2 makes the step
fail with a ValueError. -/
theorem hotpixels_validation_witness :
    ∃ msg, hotpixelsCorrection ⟨1, 1, fun _ _ => 4⟩ ⟨1, 1, fun _ _ => 0⟩
        (some ⟨1, 1, fun _ _ => 2⟩) = .error (.valueError msg) :=
  ((hotpixels_validation ⟨1, 1, fun _ _ => 4⟩ ⟨1, 1, fun _ _ => 0⟩
      ⟨1, 1, fun _ _ => 2⟩).1
    ⟨0, by decide, 0, by decide, by decide, by decide⟩).1

/-- C2 counterexample: with a callable that returns 7 on 1D input and 3
on 2D input, the mask detector linearity stage yields 3 at pixel (0, 0)
of a 2 by 2 frame, while flattening, applying and reshaping, as the claim
describes it, yields 7: the claim fails on this input. -/
theorem mask_detector_linearity_counterexample :
    ((maskDetector .Timepix (some fShape) ⟨2, 2, fun _ _ => 1⟩ ⟨2, 2, fun _ _ => 0⟩ 1
        none none none).map (fun p => p.1.entry 0 0) = .ok 3) ∧
    ((linearityCorrection (some fShape) ⟨2, 2, fun _ _ => 1⟩).map
        (fun dd => dd.entry 0 0) = .ok 7) ∧ (3 : ℚ) ≠ 7 :=
  ⟨rfl, rfl, by decide⟩

/-- C2 amended: mask detector applies the configured linearity function
directly to the 2D data array, with no flattening, reshaping or float
conversion, and skips the stage when no function is configured; the
flatten, apply and reshape helper exists in the class but is not invoked
by mask detector.  Stated on the Timepix model whose remaining stages
are passthrough. -/
theorem mask_detector_linearity_direct (f : Option (NdArr → NdArr)) (d m : Mat)
    (hr : d.rows = m.rows) (hc : d.cols = m.cols) :
    maskDetector .Timepix f d m 1 none none none =
      match f with
      | none => .ok (d, m)
      | some F =>
          match ndToMat2 (F (matToNd d)) with
          | some d1 => .ok (d1, m)
          | none => .error (.valueError "data should be a 2D array") := by
  unfold maskDetector
  rw [if_pos (show d.rows = m.rows ∧ d.cols = m.cols from ⟨hr, hc⟩)]
  cases f with
  | none => rfl
  | some F =>
      cases hnd : ndToMat2 (F (matToNd d)) with
      | some d1 =>
          show (linearityStep (some F) d) >>= _ = _
          simp only [linearityStep, hnd]
          rfl
      | none =>
          show (linearityStep (some F) d) >>= _ = _
          simp only [linearityStep, hnd]
          rfl

/-- Witness for C2 amended at a concrete call with no configured
function. -/
theorem mask_detector_linearity_direct_witness :
    maskDetector .Timepix none ⟨1, 1, fun _ _ => 4⟩ ⟨1, 1, fun _ _ => 0⟩ 1
        none none none = .ok (⟨1, 1, fun _ _ => 4⟩, ⟨1, 1, fun _ _ => 0⟩) :=
  mask_detector_linearity_direct none ⟨1, 1, fun _ _ => 4⟩ ⟨1, 1, fun _ _ => 0⟩ rfl rfl

/-- C6: assigning None or an empty sequence to roi yields the full
preprocessing binned frame box, and assigning None or an empty sequence
to sum roi yields roi itself when roi is set, else the full frame; the
defaults are computed from the pixel counts, which divide the unbinned
counts by the preprocessing binning at assignment time. -/
theorem roi_default_full_frame (s : DetConfig) (v : Option (List Int))
    (hv : v = none ∨ v = some []) :
    roiSet s v = .ok { s with roi := [0, (nbPixelY s : Int), 0, (nbPixelX s : Int)] } ∧
    (s.roi.length = 4 → sumRoiSet s v = .ok { s with sumRoi := s.roi }) ∧
    (s.roi = [] → sumRoiSet s v =
      .ok { s with sumRoi := [0, (nbPixelY s : Int), 0, (nbPixelX s : Int)] }) := by
  have hroi : ∀ w : List Int, w.length = 4 → w.isEmpty = false := by
    intro w hw
    cases w with
    | nil => simp at hw
    | cons a l => rfl
  rcases hv with hv | hv <;> subst hv <;>
    refine ⟨rfl, fun hlen => ?_, fun hempty => ?_⟩
  · simp only [sumRoiSet, hroi s.roi hlen, Bool.false_eq_true, if_false, hlen, if_pos]
  · simp only [sumRoiSet, hempty, List.isEmpty_nil, if_true]
    rfl
  · simp only [sumRoiSet, List.isEmpty_nil, if_true, hroi s.roi hlen, Bool.false_eq_true,
      if_false, hlen, if_pos]
  · simp only [sumRoiSet, hempty, List.isEmpty_nil, if_true]
    rfl

/-- Witness for C6 on a concrete configuration with a set roi. -/
theorem roi_default_full_frame_witness :
    roiSet ⟨(516, 516), (1, 2, 2), [1, 2, 3, 4], [0, 0, 0, 0]⟩ none =
      .ok ⟨(516, 516), (1, 2, 2), [0, 258, 0, 258], [0, 0, 0, 0]⟩ ∧
    sumRoiSet ⟨(516, 516), (1, 2, 2), [1, 2, 3, 4], [0, 0, 0, 0]⟩ none =
      .ok ⟨(516, 516), (1, 2, 2), [1, 2, 3, 4], [1, 2, 3, 4]⟩ := by
  have h := roi_default_full_frame ⟨(516, 516), (1, 2, 2), [1, 2, 3, 4], [0, 0, 0, 0]⟩
    none (Or.inl rfl)
  exact ⟨h.1, h.2.1 rfl⟩

/-- C7: the factory always fails on an unrecognized model name with a
NotImplementedError whose message names the string, and returns no
detector object. -/
theorem create_detector_unknown (name : String)
    (h : name ∉ (["Maxipix", "Eiger2M", "Eiger4M", "Timepix", "Merlin",
        "Dummy"] : List String)) :
    createDetector name =
      .error (.notImplementedError
        ("No implementation for the " ++ name ++ " detector")) := by
  simp only [List.mem_cons, List.not_mem_nil, or_false, not_or] at h
  obtain ⟨h1, h2, h3, h4, h5, h6⟩ := h
  simp only [createDetector, h1, h2, h3, h4, h5, h6, if_false]

/-- Witness for C7 at the concrete unknown name PILATUS. -/
theorem create_detector_unknown_witness :
    createDetector "PILATUS" =
      .error (.notImplementedError
        ("No implementation for the " ++ "PILATUS" ++ " detector")) :=
  create_detector_unknown "PILATUS" (by decide)

/-- C10 counterexample: on a 2 by 2 frame, mask detector for Eiger2M does
not succeed: the integer column index 478 in its gap table is bounds
checked by numpy and raises IndexError, so the call does not succeed for
every model on every equal shape pair. -/
theorem mask_detector_small_eiger2m_counterexample :
    maskDetector .Eiger2M none ⟨2, 2, fun _ _ => 1⟩ ⟨2, 2, fun _ _ => 0⟩ 1
        none none none = .error (.indexError "index out of bounds") := rfl

/-- C10 amended: mask detector never checks the frame shape against the
model geometry.  For every equal shape 2D pair the call succeeds on every
model except Eiger2M, whose integer column indices 478 and 481 demand at
least 482 columns, succeeding above that width; gap slices clamp to the
frame, so on a Maxipix frame with fewer than 256 rows the gap step leaves
every pixel outside the column band 255:261 unchanged and masks no row
band. -/
theorem mask_detector_no_geometry_check (d m : Mat)
    (hr : d.rows = m.rows) (hc : d.cols = m.cols) :
    (∀ model, model ≠ DetectorModel.Eiger2M →
      ∃ p, maskDetector model none d m 1 none none none = .ok p) ∧
    (481 < d.cols → ∃ p, maskDetector .Eiger2M none d m 1 none none none = .ok p) ∧
    (d.rows < 256 → ∀ i j, ¬ (255 ≤ j ∧ j < 261) →
      (gapsMaxipix d m).1.entry i j = d.entry i j ∧
      (gapsMaxipix d m).2.entry i j = m.entry i j) := by
  refine ⟨?_, ?_, ?_⟩
  · intro model hne
    cases model with
    | Eiger2M => exact absurd rfl hne
    | Timepix =>
        refine ⟨(d, m), ?_⟩
        unfold maskDetector
        rw [if_pos (show d.rows = m.rows ∧ d.cols = m.cols from ⟨hr, hc⟩)]
        rfl
    | Dummy =>
        refine ⟨(d, m), ?_⟩
        unfold maskDetector
        rw [if_pos (show d.rows = m.rows ∧ d.cols = m.cols from ⟨hr, hc⟩)]
        rfl
    | Maxipix =>
        exact ⟨_, by
          unfold maskDetector
          rw [if_pos (show d.rows = m.rows ∧ d.cols = m.cols from ⟨hr, hc⟩)]
          exact satSome 1000000 1 (by decide) (gapsMaxipix d m).1 (gapsMaxipix d m).2
            (show (gapsMaxipix d m).1.rows = (gapsMaxipix d m).2.rows from hr)
            (show (gapsMaxipix d m).1.cols = (gapsMaxipix d m).2.cols from hc)⟩
    | Merlin =>
        exact ⟨_, by
          unfold maskDetector
          rw [if_pos (show d.rows = m.rows ∧ d.cols = m.cols from ⟨hr, hc⟩)]
          exact satSome 1000000 1 (by decide) (gapsMerlin d m).1 (gapsMerlin d m).2
            (show (gapsMerlin d m).1.rows = (gapsMerlin d m).2.rows from hr)
            (show (gapsMerlin d m).1.cols = (gapsMerlin d m).2.cols from hc)⟩
    | Eiger4M =>
        exact ⟨_, by
          unfold maskDetector
          rw [if_pos (show d.rows = m.rows ∧ d.cols = m.cols from ⟨hr, hc⟩)]
          exact satSome 4000000000 1 (by decide) (gapsEiger4M d m).1 (gapsEiger4M d m).2
            (show (gapsEiger4M d m).1.rows = (gapsEiger4M d m).2.rows from hr)
            (show (gapsEiger4M d m).1.cols = (gapsEiger4M d m).2.cols from hc)⟩
  · intro h481
    have h478 : 478 < d.cols := by omega
    exact ⟨_, by
      unfold maskDetector
      rw [if_pos (show d.rows = m.rows ∧ d.cols = m.cols from ⟨hr, hc⟩)]
      show gapsEiger2M d m >>= _ = _
      rw [gapsEiger2M_ok d m h478 h481 (hc ▸ h478) (hc ▸ h481), ok_bind]
      exact satSome 1000000 1 (by decide) (e2mData d) (e2mMask m)
        (show (e2mData d).rows = (e2mMask m).rows from hr)
        (show (e2mData d).cols = (e2mMask m).cols from hc)⟩
  · intro hrows i j hband
    rw [gapsMaxipix_eq]
    constructor
    · dsimp only
      apply applyRegions_notin
      intro r hmem hin
      simp only [maxipixRegs, List.mem_cons, List.not_mem_nil, or_false] at hmem
      rcases hmem with hmem | hmem <;> subst hmem <;>
        (simp only [inRegion] at hin; omega)
    · dsimp only
      apply applyRegions_notin
      intro r hmem hin
      simp only [maxipixRegs, List.mem_cons, List.not_mem_nil, or_false] at hmem
      rcases hmem with hmem | hmem <;> subst hmem <;>
        (simp only [inRegion] at hin; omega)

/-- Witness for C10 amended on a concrete one by one Timepix frame. -/
theorem mask_detector_no_geometry_check_witness :
    ∃ p, maskDetector .Timepix none ⟨1, 1, fun _ _ => 2⟩ ⟨1, 1, fun _ _ => 0⟩ 1
        none none none = .ok p :=
  (mask_detector_no_geometry_check ⟨1, 1, fun _ _ => 2⟩ ⟨1, 1, fun _ _ => 0⟩ rfl rfl).1
    .Timepix (by decide)
